import Mathlib

/-!
Shallow embedding of the SwasthyaLink MVP backend (`src/MVP/backend/server.js`)
and the Mongoose patient schema (`src/unnamed/part_000`, `models/Patient.js`).

Modelling conventions:
* JavaScript strings are Lean `String`; a JSON field that may be absent is an
  `Option String` (`none` = the field is missing / `undefined`).
* JS truthiness on such a field is `truthy` (absent and the empty string are
  falsy, every other string is truthy).
* `parseInt` is modelled faithfully by `jsParseInt` (leading whitespace, an
  optional sign, a `0x`/`0X` hexadecimal prefix, longest digit prefix,
  `NaN` = `none`).
* JWTs are symbolic: a signed token records its claims, issue time, expiry
  and the secret it was signed with; verification checks the secret and the
  expiry (`jsonwebtoken` rejects a token once the clock reaches `exp`).
  A presented token that is not a well-formed JWT at all is `.malformed`.
* The record store (MongoDB) is a list of persisted records plus a counter
  for store-assigned ids and a strictly increasing clock supplying the
  store-assigned `createdAt`/`updatedAt` timestamps.
* Response bodies are a small JSON value type `JVal`; tokens and persisted
  records are embedded losslessly as their own constructors.
-/

namespace SwasthyaLink

/-- Payload claims carried by the session token: `{ username, role }`
(`jwt.sign({ username: username, role: 'asha_worker' }, ...)`). -/
structure TokenClaims where
  username : String
  role : String
deriving DecidableEq, Repr

/-- A structurally well-formed signed JWT: its claims, issue time, expiry
time (seconds), and the secret whose signature it carries. -/
structure SignedToken where
  claims : TokenClaims
  iat : Nat
  exp : Nat
  secret : String
deriving DecidableEq, Repr

/-- A token string presented by a client: either not a well-formed JWT at
all, or a well-formed signed token (possibly signed with the wrong secret,
possibly expired). -/
inductive PresentedToken where
  | malformed : PresentedToken
  | signed (t : SignedToken) : PresentedToken
deriving DecidableEq, Repr

/-- `jwt.sign(claims, secret, { expiresIn })` at time `now` (seconds). -/
def jwtSign (c : TokenClaims) (secret : String) (now expiresInSec : Nat) :
    SignedToken :=
  ⟨c, now, now + expiresInSec, secret⟩

/-- `jwt.verify(token, secret)` at time `now`: succeeds with the decoded
claims iff the token is well-formed, signed with `secret`, and not yet
expired (`jsonwebtoken` raises `TokenExpiredError` once `now ≥ exp`). -/
def jwtVerify (p : PresentedToken) (secret : String) (now : Nat) :
    Option TokenClaims :=
  match p with
  | .malformed => none
  | .signed t => if t.secret = secret ∧ now < t.exp then some t.claims else none

/-- A persisted patient record (`models/Patient.js` document): the five
validated fields plus the store-assigned `_id` and `timestamps: true`
fields. -/
structure Patient where
  id : Nat
  name : String
  age : Int
  gender : String
  village : String
  healthIssue : String
  createdAt : Nat
  updatedAt : Nat
deriving DecidableEq, Repr

/-- JSON-like response bodies. Symbolic tokens and persisted records are
embedded as their own constructors so bodies can carry them losslessly. -/
inductive JVal where
  | null : JVal
  | bool (b : Bool) : JVal
  | num (n : Int) : JVal
  | str (s : String) : JVal
  | arr (xs : List JVal) : JVal
  | obj (fields : List (String × JVal)) : JVal
  | tok (t : SignedToken) : JVal
  | patientRec (p : Patient) : JVal

/-- Top-level field lookup in an association list (first match wins, as in a
JSON object literal without duplicate keys). -/
def lookupField (k : String) : List (String × JVal) → Option JVal
  | [] => none
  | (k', v) :: rest => if k' = k then some v else lookupField k rest

/-- Whether a response body is an object carrying a boolean `success`
field. -/
def bodyHasSuccessBool (body : JVal) : Bool :=
  match body with
  | .obj fs =>
    match lookupField "success" fs with
    | some (.bool _) => true
    | _ => false
  | _ => false

/-- Whether a response body is an object carrying a string `error` field. -/
def bodyHasErrorStr (body : JVal) : Bool :=
  match body with
  | .obj fs =>
    match lookupField "error" fs with
    | some (.str _) => true
    | _ => false
  | _ => false

/-- Whether a response body is an object carrying a `token` field. -/
def bodyHasToken (body : JVal) : Bool :=
  match body with
  | .obj fs => (lookupField "token" fs).isSome
  | _ => false

/-- Strip leading and trailing whitespace from a character list. -/
def trimChars (l : List Char) : List Char :=
  ((l.dropWhile Char.isWhitespace).reverse.dropWhile Char.isWhitespace).reverse

/-- JavaScript `String.prototype.trim()`: strip whitespace from both ends. -/
def jsTrim (s : String) : String :=
  ⟨trimChars s.toList⟩

/-- JS truthiness of a possibly-absent string field: `undefined` and `""`
are falsy, every other string is truthy. -/
def truthy : Option String → Bool
  | none => false
  | some s => !(s == "")

/-- JS string coercion of a possibly-absent field, as applied by `parseInt`
and `includes`: `undefined` coerces to the string "undefined". -/
def fieldStr : Option String → String
  | none => "undefined"
  | some s => s

/-- Value of a decimal digit character, `none` otherwise. -/
def decDigit? (c : Char) : Option Nat :=
  if c.isDigit then some (c.toNat - 48) else none

/-- Value of a hexadecimal digit character, `none` otherwise. -/
def hexDigit? (c : Char) : Option Nat :=
  if c.isDigit then some (c.toNat - 48)
  else if 'a' ≤ c ∧ c ≤ 'f' then some (c.toNat - 87)
  else if 'A' ≤ c ∧ c ≤ 'F' then some (c.toNat - 55)
  else none

/-- Accumulate the longest prefix of digits recognised by `digit?` in the
given base; `none` when no digit is read at all (JS `NaN`). -/
def parseDigits (digit? : Char → Option Nat) (base : Nat) :
    Nat → Bool → List Char → Option Nat
  | acc, seen, [] => if seen then some acc else none
  | acc, seen, c :: cs =>
    match digit? c with
    | some d => parseDigits digit? base (acc * base + d) true cs
    | none => if seen then some acc else none

/-- JavaScript `parseInt(s)` with no radix argument: skip leading
whitespace, read an optional sign, recognise a `0x`/`0X` hexadecimal
prefix, then take the longest prefix of digits; `NaN` is `none`. -/
def jsParseInt (s : String) : Option Int :=
  let l := s.toList.dropWhile Char.isWhitespace
  let sign : Int := match l with
    | '-' :: _ => -1
    | _ => 1
  let l' := match l with
    | '-' :: rest => rest
    | '+' :: rest => rest
    | _ => l
  match l' with
  | '0' :: 'x' :: rest => (parseDigits hexDigit? 16 0 false rest).map (sign * ·)
  | '0' :: 'X' :: rest => (parseDigits hexDigit? 16 0 false rest).map (sign * ·)
  | _ => (parseDigits decDigit? 10 0 false l').map (sign * ·)

/-- Server configuration: the hardcoded credential pair and the JWT secret
(environment variables with the defaults from `server.js`). -/
structure Config where
  hardcodedUsername : String
  hardcodedPassword : String
  jwtSecret : String
deriving DecidableEq, Repr

/-- The configuration when no environment variables are set:
`asha_worker` / `password123` / `fallback-secret`. -/
def defaultConfig : Config :=
  ⟨"asha_worker", "password123", "fallback-secret"⟩

/-- The record store: persisted records in insertion order, the next
store-assigned id, and a strictly increasing clock supplying the
store-assigned creation/update timestamps. -/
structure StoreState where
  patients : List Patient
  nextId : Nat
  clock : Nat
deriving DecidableEq, Repr

/-- The store before any record has been created. -/
def emptyStore : StoreState := ⟨[], 0, 0⟩

/-- Body of a `POST /login` request (`req.body.username`,
`req.body.password`; absent fields are `none`). -/
structure LoginRequest where
  username : Option String
  password : Option String
deriving DecidableEq, Repr

/-- The `POST /login` handler. Returns the HTTP status and the JSON body.
Mirrors `server.js` lines 99-143: the `!username || !password` guard, the
exact comparison against the hardcoded pair, the 24h-expiry token on
success, and the generic `Invalid credentials` failure. -/
def handleLogin (cfg : Config) (now : Nat) (req : LoginRequest) : Nat × JVal :=
  if !(truthy req.username) || !(truthy req.password) then
    (400, .obj [("success", .bool false),
                ("error", .str "Username and password are required")])
  else if req.username = some cfg.hardcodedUsername ∧
      req.password = some cfg.hardcodedPassword then
    let token := jwtSign ⟨fieldStr req.username, "asha_worker"⟩
      cfg.jwtSecret now (24 * 60 * 60)
    (200, .obj [("success", .bool true),
                ("token", .tok token),
                ("user", .obj [("username", .str (fieldStr req.username)),
                               ("role", .str "asha_worker")])])
  else
    (401, .obj [("success", .bool false),
                ("error", .str "Invalid credentials")])

/-- The `Authorization` header of a protected request:
absent, present but with no token part after `split(' ')[1]` (this also
covers an empty token part, which is falsy), or carrying a token part. -/
inductive AuthHeader where
  | absent : AuthHeader
  | noToken : AuthHeader
  | bearer (tok : PresentedToken) : AuthHeader
deriving DecidableEq, Repr

/-- The `authenticateToken` middleware (`server.js` lines 79-94): 401
`Access token required` when no token is presented, 403
`Invalid or expired token` when verification fails, otherwise the decoded
claims are passed to the handler. Note neither error body carries a
`success` field. -/
def authenticateToken (cfg : Config) (now : Nat) (h : AuthHeader) :
    Except (Nat × JVal) TokenClaims :=
  match h with
  | .absent => .error (401, .obj [("error", .str "Access token required")])
  | .noToken => .error (401, .obj [("error", .str "Access token required")])
  | .bearer tok =>
    match jwtVerify tok cfg.jwtSecret now with
    | none => .error (403, .obj [("error", .str "Invalid or expired token")])
    | some user => .ok user

/-- Body of a `POST /patients` request: the five patient fields as sent by
the client. A numeric JSON value is represented by its decimal string (the
handler only applies `parseInt`, string coercion, and truthiness to `age`,
and these agree on that representation). -/
structure PatientBody where
  name : Option String
  age : Option String
  gender : Option String
  village : Option String
  healthIssue : Option String
deriving DecidableEq, Repr

/-- The check `!f?.trim()`: true iff the field is absent or trims to the
empty string. -/
def blankField (f : Option String) : Bool :=
  match f with
  | none => true
  | some s => jsTrim s == ""

/-- The age check of the create handler:
`!age || isNaN(parseInt(age)) || parseInt(age) <= 0 || parseInt(age) > 150`. -/
def ageInvalid (age : Option String) : Bool :=
  !(truthy age) ||
  (match jsParseInt (fieldStr age) with
   | none => true
   | some n => decide (n ≤ 0) || decide (n > 150))

/-- The gender check of the create handler:
`!gender || !['Male', 'Female', 'Other'].includes(gender)`. -/
def genderInvalid (gender : Option String) : Bool :=
  !(truthy gender) ||
  !(decide (fieldStr gender ∈ (["Male", "Female", "Other"] : List String)))

/-- A 400 validation-failure body: `{ success: false, error: msg }`. -/
def errBody (msg : String) : JVal :=
  .obj [("success", .bool false), ("error", .str msg)]

/-- The five validation checks of the create handler, in source order,
short-circuiting at the first failure; `none` means all five passed. -/
def validatePatient (b : PatientBody) : Option (Nat × JVal) :=
  if blankField b.name then
    some (400, errBody "Patient name is required")
  else if ageInvalid b.age then
    some (400, errBody "Valid age is required (1-150)")
  else if genderInvalid b.gender then
    some (400, errBody "Valid gender is required (Male, Female, Other)")
  else if blankField b.village then
    some (400, errBody "Village name is required")
  else if blankField b.healthIssue then
    some (400, errBody "Health issue description is required")
  else
    none

/-- The `POST /patients` handler body (after the auth middleware),
`server.js` lines 146-207: run the five checks; on success persist
`{ name: name.trim(), age: parseInt(age), gender, village: village.trim(),
healthIssue: healthIssue.trim() }` with a store-assigned id and timestamps
and answer 201 with the saved record. Validation guarantees the parse of
`age` succeeded, so the `getD 0` default is never taken. -/
def handleCreatePatient (st : StoreState) (b : PatientBody) :
    (Nat × JVal) × StoreState :=
  match validatePatient b with
  | some resp => (resp, st)
  | none =>
    let p : Patient :=
      { id := st.nextId
        name := jsTrim (fieldStr b.name)
        age := (jsParseInt (fieldStr b.age)).getD 0
        gender := fieldStr b.gender
        village := jsTrim (fieldStr b.village)
        healthIssue := jsTrim (fieldStr b.healthIssue)
        createdAt := st.clock
        updatedAt := st.clock }
    ((201, .obj [("success", .bool true),
                 ("patient", .patientRec p),
                 ("message", .str "Patient added successfully")]),
     { patients := st.patients ++ [p]
       nextId := st.nextId + 1
       clock := st.clock + 1 })

/-- Creation-time-descending order on records, the `sort({ createdAt: -1 })`
key order. -/
def createdDesc (a b : Patient) : Prop := b.createdAt ≤ a.createdAt

instance : DecidableRel createdDesc :=
  fun a b => Nat.decLe b.createdAt a.createdAt

instance : IsTotal Patient createdDesc :=
  ⟨fun a b => Nat.le_total b.createdAt a.createdAt⟩

instance : IsTrans Patient createdDesc :=
  ⟨fun _ _ _ h1 h2 => Nat.le_trans h2 h1⟩

/-- The `GET /patients` handler body (after the auth middleware),
`server.js` lines 210-226: `Patient.find().sort({ createdAt: -1 })`, then
200 with the records and their count. -/
def handleGetPatients (st : StoreState) : Nat × JVal :=
  let sorted := List.insertionSort createdDesc st.patients
  (200, .obj [("success", .bool true),
              ("patients", .arr (sorted.map .patientRec)),
              ("count", .num sorted.length)])

/-- The protected `POST /patients` route: auth middleware, then the create
handler. An auth failure answers immediately and the store is untouched. -/
def postPatients (cfg : Config) (now : Nat) (h : AuthHeader)
    (b : PatientBody) (st : StoreState) : (Nat × JVal) × StoreState :=
  match authenticateToken cfg now h with
  | .error resp => (resp, st)
  | .ok _user => handleCreatePatient st b

/-- The protected `GET /patients` route: auth middleware, then the list
handler (which never mutates the store). -/
def getPatients (cfg : Config) (now : Nat) (h : AuthHeader)
    (st : StoreState) : (Nat × JVal) × StoreState :=
  match authenticateToken cfg now h with
  | .error resp => (resp, st)
  | .ok _user => (handleGetPatients st, st)

/-- The `GET /health` handler (`server.js` lines 229-249): maps the
connection `readyState` to a status word and answers 200 with
`{ status, message, database, timestamp }` (no `success` field). -/
def handleHealth (dbState : Nat) (timestamp : String) : Nat × JVal :=
  let dbStatus := if dbState = 1 then "Connected"
    else if dbState = 2 then "Connecting"
    else if dbState = 3 then "Disconnecting"
    else "Disconnected"
  (200, .obj [("status", .str "OK"),
              ("message", .str "Patient Management API is running"),
              ("database", .str dbStatus),
              ("timestamp", .str timestamp)])

/-- The catch-all 404 handler (`server.js` lines 252-257). -/
def handleNotFound (method originalUrl : String) : Nat × JVal :=
  (404, .obj [("success", .bool false),
              ("error", .str ("Route " ++ method ++ " " ++ originalUrl
                ++ " not found"))])

/-- The Mongoose schema bound on `age` (`min: 0, max: 150` in
`models/Patient.js`). -/
def patientSchemaAllowsAge (n : Int) : Bool :=
  decide (0 ≤ n) && decide (n ≤ 150)

/-- A sequence of create requests applied to a store (each request already
past the auth middleware). -/
def runCreates (st : StoreState) (bs : List PatientBody) : StoreState :=
  bs.foldl (fun s b => (handleCreatePatient s b).2) st

/-- The five validation checks in their fixed source order. -/
def ruleChecks (b : PatientBody) : List Bool :=
  [blankField b.name, ageInvalid b.age, genderInvalid b.gender,
   blankField b.village, blankField b.healthIssue]

/-- The five validation error messages, in the same fixed order. -/
def ruleErrors : List String :=
  ["Patient name is required",
   "Valid age is required (1-150)",
   "Valid gender is required (Male, Female, Other)",
   "Village name is required",
   "Health issue description is required"]

/-- Whether the i-th validation rule (in source order) is violated. -/
def ruleViolated (b : PatientBody) (i : Fin 5) : Bool :=
  (ruleChecks b).get i

/-- The error message of the i-th validation rule. -/
def ruleError (i : Fin 5) : String :=
  ruleErrors.get i

/-- The concrete patient body of the spec scenario
`{name:"Ravi", age:34, gender:"Male", village:"Koli", healthIssue:"fever"}`. -/
def raviBody : PatientBody :=
  ⟨some "Ravi", some "34", some "Male", some "Koli", some "fever"⟩

/-- A token as issued at time 0 by a login against the default config. -/
def demoToken : SignedToken :=
  ⟨⟨"asha_worker", "asha_worker"⟩, 0, 86400, "fallback-secret"⟩

/-- If every one of the five rules holds, validation passes. -/
theorem validatePatient_eq_none_of_rules (b : PatientBody)
    (hv : ∀ i : Fin 5, ruleViolated b i = false) :
    validatePatient b = none := by
  have h0 : blankField b.name = false := hv 0
  have h1 : ageInvalid b.age = false := hv 1
  have h2 : genderInvalid b.gender = false := hv 2
  have h3 : blankField b.village = false := hv 3
  have h4 : blankField b.healthIssue = false := hv 4
  simp [validatePatient, h0, h1, h2, h3, h4]

/-- C1: for every create request with a verified token, the five field
validations are applied in the fixed order name, age, gender, village,
healthIssue; the first violated rule determines the outcome — status 400,
the distinct error message of that rule, the store untouched — regardless
of the later rules. -/
theorem create_first_violated_rule_determines_error
    (cfg : Config) (now : Nat) (h : AuthHeader) (c : TokenClaims)
    (st : StoreState) (b : PatientBody) (i : Fin 5)
    (hauth : authenticateToken cfg now h = .ok c)
    (hi : ruleViolated b i = true)
    (hfirst : ∀ j : Fin 5, j < i → ruleViolated b j = false) :
    postPatients cfg now h b st = ((400, errBody (ruleError i)), st) ∧
    (∀ j k : Fin 5, j ≠ k → ruleError j ≠ ruleError k) := by
  refine ⟨?_, by decide⟩
  have hpost : postPatients cfg now h b st =
      (match validatePatient b with
       | some resp => (resp, st)
       | none => handleCreatePatient st b) := by
    simp [postPatients, hauth, handleCreatePatient]
    cases validatePatient b <;> simp [handleCreatePatient]
  fin_cases i
  · have hi' : blankField b.name = true := hi
    show postPatients cfg now h b st =
      ((400, errBody "Patient name is required"), st)
    rw [hpost]
    simp [validatePatient, hi']
  · have hi' : ageInvalid b.age = true := hi
    have h0 : blankField b.name = false := hfirst 0 (by decide)
    show postPatients cfg now h b st =
      ((400, errBody "Valid age is required (1-150)"), st)
    rw [hpost]
    simp [validatePatient, hi', h0]
  · have hi' : genderInvalid b.gender = true := hi
    have h0 : blankField b.name = false := hfirst 0 (by decide)
    have h1 : ageInvalid b.age = false := hfirst 1 (by decide)
    show postPatients cfg now h b st =
      ((400, errBody "Valid gender is required (Male, Female, Other)"), st)
    rw [hpost]
    simp [validatePatient, hi', h0, h1]
  · have hi' : blankField b.village = true := hi
    have h0 : blankField b.name = false := hfirst 0 (by decide)
    have h1 : ageInvalid b.age = false := hfirst 1 (by decide)
    have h2 : genderInvalid b.gender = false := hfirst 2 (by decide)
    show postPatients cfg now h b st =
      ((400, errBody "Village name is required"), st)
    rw [hpost]
    simp [validatePatient, hi', h0, h1, h2]
  · have hi' : blankField b.healthIssue = true := hi
    have h0 : blankField b.name = false := hfirst 0 (by decide)
    have h1 : ageInvalid b.age = false := hfirst 1 (by decide)
    have h2 : genderInvalid b.gender = false := hfirst 2 (by decide)
    have h3 : blankField b.village = false := hfirst 3 (by decide)
    show postPatients cfg now h b st =
      ((400, errBody "Health issue description is required"), st)
    rw [hpost]
    simp [validatePatient, hi', h0, h1, h2, h3]

/-- Witness for C1: an all-absent body violates the name rule first, and the
create request fails with the name error, leaving the store empty. -/
theorem create_first_violated_rule_determines_error_witness :
    postPatients defaultConfig 0 (AuthHeader.bearer (.signed demoToken))
      ⟨none, none, none, none, none⟩ emptyStore =
      ((400, errBody (ruleError 0)), emptyStore) :=
  (create_first_violated_rule_determines_error defaultConfig 0
    (AuthHeader.bearer (.signed demoToken)) demoToken.claims emptyStore
    ⟨none, none, none, none, none⟩ 0 rfl rfl
    (fun j hj => absurd hj (by simp [Fin.not_lt_zero]))).1

/-- C2: a create request with a verified token whose five fields satisfy all
validation rules succeeds with status 201, returns the persisted record —
text fields exactly the trimmed inputs, age the parsed integer, id and
timestamps assigned by the store — and appends that record to the store. -/
theorem create_valid_input_persists_trimmed
    (cfg : Config) (now : Nat) (h : AuthHeader) (c : TokenClaims)
    (st : StoreState) (b : PatientBody) (n : Int)
    (hauth : authenticateToken cfg now h = .ok c)
    (hvalid : ∀ i : Fin 5, ruleViolated b i = false)
    (hage : jsParseInt (fieldStr b.age) = some n) :
    ∃ p : Patient,
      postPatients cfg now h b st =
        ((201, .obj [("success", .bool true),
                     ("patient", .patientRec p),
                     ("message", .str "Patient added successfully")]),
         { patients := st.patients ++ [p]
           nextId := st.nextId + 1
           clock := st.clock + 1 }) ∧
      p.name = jsTrim (fieldStr b.name) ∧
      p.age = n ∧
      p.gender = fieldStr b.gender ∧
      p.village = jsTrim (fieldStr b.village) ∧
      p.healthIssue = jsTrim (fieldStr b.healthIssue) ∧
      p.id = st.nextId ∧
      p.createdAt = st.clock ∧
      p.updatedAt = st.clock := by
  have hv : validatePatient b = none := validatePatient_eq_none_of_rules b hvalid
  refine ⟨{ id := st.nextId
            name := jsTrim (fieldStr b.name)
            age := n
            gender := fieldStr b.gender
            village := jsTrim (fieldStr b.village)
            healthIssue := jsTrim (fieldStr b.healthIssue)
            createdAt := st.clock
            updatedAt := st.clock },
    ?_, rfl, rfl, rfl, rfl, rfl, rfl, rfl, rfl⟩
  simp [postPatients, hauth, handleCreatePatient, hv, hage]

/-- Witness for C2: the spec's concrete scenario input yields a 201. -/
theorem create_valid_input_persists_trimmed_witness :
    (postPatients defaultConfig 0 (AuthHeader.bearer (.signed demoToken))
      raviBody emptyStore).1.1 = 201 := by
  obtain ⟨p, hp, -⟩ := create_valid_input_persists_trimmed defaultConfig 0
    (AuthHeader.bearer (.signed demoToken)) demoToken.claims emptyStore
    raviBody 34 rfl (by decide) rfl
  rw [hp]

/-- Each successful create appends exactly one record to the store. -/
theorem runCreates_patients_length (bs : List PatientBody) :
    ∀ st : StoreState, (∀ b ∈ bs, validatePatient b = none) →
      (runCreates st bs).patients.length = st.patients.length + bs.length := by
  induction bs with
  | nil =>
    intro st _
    simp [runCreates]
  | cons b bs ih =>
    intro st hv
    have hb : validatePatient b = none := hv b (List.mem_cons_self b bs)
    have hstep : runCreates st (b :: bs) =
        runCreates ((handleCreatePatient st b).2) bs := rfl
    rw [hstep, ih _ (fun b' hb' => hv b' (List.mem_cons_of_mem _ hb'))]
    simp [handleCreatePatient, hb]
    omega

/-- C3: listing with a verified token over the store reached by N successful
creates answers 200 with exactly the stored records, sorted by creation
time descending, and a count equal to the number returned, which is N; the
store itself is not mutated. -/
theorem list_after_creates_sorted_desc
    (cfg : Config) (now : Nat) (h : AuthHeader) (c : TokenClaims)
    (bs : List PatientBody)
    (hauth : authenticateToken cfg now h = .ok c)
    (hvalid : ∀ b ∈ bs, validatePatient b = none) :
    getPatients cfg now h (runCreates emptyStore bs) =
      ((200, .obj [("success", .bool true),
                   ("patients", .arr ((List.insertionSort createdDesc
                     (runCreates emptyStore bs).patients).map .patientRec)),
                   ("count", .num (List.insertionSort createdDesc
                     (runCreates emptyStore bs).patients).length)]),
       runCreates emptyStore bs) ∧
    (List.insertionSort createdDesc (runCreates emptyStore bs).patients).Perm
      (runCreates emptyStore bs).patients ∧
    List.Sorted createdDesc
      (List.insertionSort createdDesc (runCreates emptyStore bs).patients) ∧
    (List.insertionSort createdDesc (runCreates emptyStore bs).patients).length
      = bs.length := by
  refine ⟨?_, List.perm_insertionSort _ _, List.sorted_insertionSort _ _, ?_⟩
  · simp [getPatients, hauth, handleGetPatients]
  · rw [(List.perm_insertionSort createdDesc _).length_eq]
    have hlen := runCreates_patients_length bs emptyStore hvalid
    simpa [emptyStore] using hlen

/-- Witness for C3: after one successful create, the list handler returns
exactly one record. -/
theorem list_after_creates_sorted_desc_witness :
    (List.insertionSort createdDesc
      (runCreates emptyStore [raviBody]).patients).length = 1 :=
  (list_after_creates_sorted_desc defaultConfig 0
    (AuthHeader.bearer (.signed demoToken)) demoToken.claims [raviBody] rfl
    (by
      intro b hb
      rw [List.mem_singleton.mp hb]
      rfl)).2.2.2

/-- C4: login with exactly the configured pair answers 200 with a signed
token encoding the username and the fixed role `asha_worker`, expiring 24
hours after issuance, echoed alongside the username and role; the token
verifies against the server secret strictly before the expiry instant and
fails verification from that instant on. -/
theorem login_correct_pair_issues_24h_token
    (cfg : Config) (now t : Nat)
    (hu : cfg.hardcodedUsername ≠ "") (hp : cfg.hardcodedPassword ≠ "") :
    handleLogin cfg now ⟨some cfg.hardcodedUsername, some cfg.hardcodedPassword⟩ =
      (200, .obj [("success", .bool true),
                  ("token", .tok (jwtSign ⟨cfg.hardcodedUsername, "asha_worker"⟩
                    cfg.jwtSecret now (24 * 60 * 60))),
                  ("user", .obj [("username", .str cfg.hardcodedUsername),
                                 ("role", .str "asha_worker")])]) ∧
    (jwtSign ⟨cfg.hardcodedUsername, "asha_worker"⟩ cfg.jwtSecret now
      (24 * 60 * 60)).exp = now + 24 * 60 * 60 ∧
    (t < now + 24 * 60 * 60 →
      jwtVerify (.signed (jwtSign ⟨cfg.hardcodedUsername, "asha_worker"⟩
        cfg.jwtSecret now (24 * 60 * 60))) cfg.jwtSecret t =
        some ⟨cfg.hardcodedUsername, "asha_worker"⟩) ∧
    (now + 24 * 60 * 60 ≤ t →
      jwtVerify (.signed (jwtSign ⟨cfg.hardcodedUsername, "asha_worker"⟩
        cfg.jwtSecret now (24 * 60 * 60))) cfg.jwtSecret t = none) := by
  refine ⟨?_, rfl, ?_, ?_⟩
  · simp [handleLogin, truthy, fieldStr, hu, hp]
  · intro ht
    simp [jwtVerify, jwtSign, ht]
  · intro ht
    have hnot : ¬ (t < now + 24 * 60 * 60) := by omega
    simp [jwtVerify, jwtSign, hnot]

/-- Witness for C4: with the default configuration, a token issued at time 0
still verifies at time 86399 (one second before the 24-hour expiry). -/
theorem login_correct_pair_issues_24h_token_witness :
    jwtVerify (.signed (jwtSign ⟨"asha_worker", "asha_worker"⟩
      "fallback-secret" 0 (24 * 60 * 60))) "fallback-secret" 86399 =
      some ⟨"asha_worker", "asha_worker"⟩ :=
  (login_correct_pair_issues_24h_token defaultConfig 0 86399
    (by decide) (by decide)).2.2.1 (by omega)

/-- C5: a protected call (create or list) whose request fails the token
check — no token presented, or a token that does not verify — answers with
an auth error status (401 or 403) and leaves the record store exactly as it
was. -/
theorem auth_failure_is_auth_status_and_no_mutation
    (cfg : Config) (now : Nat) (h : AuthHeader) (b : PatientBody)
    (st : StoreState)
    (hfail : ∀ c : TokenClaims, authenticateToken cfg now h ≠ .ok c) :
    ∃ s body,
      authenticateToken cfg now h = .error (s, body) ∧
      (s = 401 ∨ s = 403) ∧
      postPatients cfg now h b st = ((s, body), st) ∧
      getPatients cfg now h st = ((s, body), st) := by
  cases h with
  | absent =>
    exact ⟨401, .obj [("error", .str "Access token required")],
      rfl, Or.inl rfl, rfl, rfl⟩
  | noToken =>
    exact ⟨401, .obj [("error", .str "Access token required")],
      rfl, Or.inl rfl, rfl, rfl⟩
  | bearer tok =>
    cases hv : jwtVerify tok cfg.jwtSecret now with
    | none =>
      refine ⟨403, .obj [("error", .str "Invalid or expired token")],
        ?_, Or.inr rfl, ?_, ?_⟩ <;>
        simp [authenticateToken, postPatients, getPatients, hv]
    | some c =>
      have hok : authenticateToken cfg now (.bearer tok) = .ok c := by
        simp [authenticateToken, hv]
      exact absurd hok (hfail c)

/-- Witness for C5: a create attempt without an Authorization header leaves
the empty store empty. -/
theorem auth_failure_is_auth_status_and_no_mutation_witness :
    (postPatients defaultConfig 0 AuthHeader.absent raviBody emptyStore).2 =
      emptyStore := by
  obtain ⟨s, body, -, -, h3, -⟩ :=
    auth_failure_is_auth_status_and_no_mutation defaultConfig 0
      AuthHeader.absent raviBody emptyStore
      (by intro c hc; simp [authenticateToken] at hc)
  rw [h3]

/-- C6: the age field passes validation exactly when `parseInt` on it yields
an integer n with 1 ≤ n ≤ 150; concretely, ages 0 and 151 fail with the 400
InvalidAge response even though the persistence schema nominally allows
age 0. -/
theorem age_accepted_iff_parsed_in_range (a : Option String) :
    (ageInvalid a = false ↔
      ∃ n : Int, jsParseInt (fieldStr a) = some n ∧ 1 ≤ n ∧ n ≤ 150) ∧
    validatePatient ⟨some "Ravi", some "0", some "Male", some "Koli",
      some "fever"⟩ = some (400, errBody "Valid age is required (1-150)") ∧
    validatePatient ⟨some "Ravi", some "151", some "Male", some "Koli",
      some "fever"⟩ = some (400, errBody "Valid age is required (1-150)") ∧
    patientSchemaAllowsAge 0 = true := by
  refine ⟨?_, rfl, rfl, rfl⟩
  match a with
  | none =>
    have hnone : jsParseInt (fieldStr (none : Option String)) = none := rfl
    simp [ageInvalid, truthy, hnone]
  | some s =>
    by_cases hs : s = ""
    · subst hs
      have hempty : jsParseInt (fieldStr (some "")) = none := rfl
      simp [ageInvalid, truthy, hempty]
    · have ht : truthy (some s) = true := by simp [truthy, hs]
      simp only [ageInvalid, fieldStr, ht, Bool.not_true, Bool.false_or]
      cases hp : jsParseInt s with
      | none => simp
      | some n =>
        simp
        omega

/-- C7: every (username, password) pair other than the configured pair fails
— 400 with the missing-credentials message when a component is absent or
empty, 401 with the invalid-credentials message otherwise — and in both
cases the response body carries no token. -/
theorem login_wrong_pair_fails_without_token
    (cfg : Config) (now : Nat) (req : LoginRequest)
    (hne : ¬(req.username = some cfg.hardcodedUsername ∧
             req.password = some cfg.hardcodedPassword)) :
    ∃ s body,
      handleLogin cfg now req = (s, body) ∧
      bodyHasToken body = false ∧
      ((truthy req.username = false ∨ truthy req.password = false) →
        s = 400 ∧ body = errBody "Username and password are required") ∧
      (truthy req.username = true → truthy req.password = true →
        s = 401 ∧ body = errBody "Invalid credentials") := by
  by_cases h1 : (!(truthy req.username) || !(truthy req.password)) = true
  · refine ⟨400, errBody "Username and password are required", ?_, rfl,
      fun _ => ⟨rfl, rfl⟩, ?_⟩
    · simp [handleLogin, h1, errBody]
    · intro hu hp
      rw [hu, hp] at h1
      simp at h1
  · refine ⟨401, errBody "Invalid credentials", ?_, rfl, ?_,
      fun _ _ => ⟨rfl, rfl⟩⟩
    · simp only [Bool.not_eq_true, Bool.or_eq_false_iff,
        Bool.not_eq_false] at h1
      simp [handleLogin, h1.1, h1.2, hne, errBody]
    · intro hor
      rcases hor with hu | hp
      · simp [hu] at h1
      · simp [hp] at h1

/-- Witness for C7: a wrong password against the default configuration gets
the generic 401. -/
theorem login_wrong_pair_fails_without_token_witness :
    handleLogin defaultConfig 0 ⟨some "asha_worker", some "wrongpass"⟩ =
      (401, errBody "Invalid credentials") := by
  obtain ⟨s, body, he, -, -, h4⟩ :=
    login_wrong_pair_fails_without_token defaultConfig 0
      ⟨some "asha_worker", some "wrongpass"⟩ (by simp [defaultConfig])
  obtain ⟨hs, hb⟩ := h4 rfl rfl
  rw [he, hs, hb]

/-- C8: any two login attempts with non-empty credentials that fail the
exact match receive literally identical responses — 401 with the generic
invalid-credentials body — whichever component was wrong. -/
theorem login_failure_response_uniform
    (cfg : Config) (now1 now2 : Nat) (r1 r2 : LoginRequest)
    (h1u : truthy r1.username = true) (h1p : truthy r1.password = true)
    (h2u : truthy r2.username = true) (h2p : truthy r2.password = true)
    (h1 : ¬(r1.username = some cfg.hardcodedUsername ∧
            r1.password = some cfg.hardcodedPassword))
    (h2 : ¬(r2.username = some cfg.hardcodedUsername ∧
            r2.password = some cfg.hardcodedPassword)) :
    handleLogin cfg now1 r1 = handleLogin cfg now2 r2 ∧
    handleLogin cfg now1 r1 = (401, errBody "Invalid credentials") := by
  have e1 : handleLogin cfg now1 r1 = (401, errBody "Invalid credentials") := by
    simp [handleLogin, h1u, h1p, h1, errBody]
  have e2 : handleLogin cfg now2 r2 = (401, errBody "Invalid credentials") := by
    simp [handleLogin, h2u, h2p, h2, errBody]
  exact ⟨e1.trans e2.symm, e1⟩

/-- Witness for C8: wrong-username-only and wrong-password-only attempts at
different times receive the identical response. -/
theorem login_failure_response_uniform_witness :
    handleLogin defaultConfig 0 ⟨some "admin", some "password123"⟩ =
      handleLogin defaultConfig 1 ⟨some "asha_worker", some "hunter2"⟩ :=
  (login_failure_response_uniform defaultConfig 0 1
    ⟨some "admin", some "password123"⟩ ⟨some "asha_worker", some "hunter2"⟩
    rfl rfl rfl rfl (by simp [defaultConfig]) (by simp [defaultConfig])).1

/-- Validation either passes or fails with a 400 and an errBody message. -/
theorem validatePatient_cases (b : PatientBody) :
    validatePatient b = none ∨
    ∃ msg, validatePatient b = some (400, errBody msg) := by
  unfold validatePatient
  split_ifs <;> first
    | exact Or.inl rfl
    | exact Or.inr ⟨_, rfl⟩

/-- C9 counterexample: the token-middleware 401 body and the health body
carry no `success` boolean, refuting the claim at these concrete
responses. -/
theorem middleware_and_health_bodies_lack_success :
    authenticateToken defaultConfig 0 AuthHeader.absent =
      .error (401, .obj [("error", .str "Access token required")]) ∧
    bodyHasSuccessBool (.obj [("error", .str "Access token required")])
      = false ∧
    handleHealth 1 "t" =
      (200, .obj [("status", .str "OK"),
                  ("message", .str "Patient Management API is running"),
                  ("database", .str "Connected"),
                  ("timestamp", .str "t")]) ∧
    bodyHasSuccessBool (.obj [("status", .str "OK"),
                  ("message", .str "Patient Management API is running"),
                  ("database", .str "Connected"),
                  ("timestamp", .str "t")]) = false :=
  ⟨rfl, rfl, rfl, rfl⟩

/-- C9 (amended): every response body produced by the login, create, list
and 404 handlers carries a `success` boolean, and their failure responses
also carry an `error` string; the token-verification middleware's failure
bodies carry an `error` string but no `success` boolean, and the health
body carries no `success` boolean. -/
theorem response_bodies_success_and_error_fields :
    (∀ cfg now req, bodyHasSuccessBool (handleLogin cfg now req).2 = true ∧
      ((handleLogin cfg now req).1 ≠ 200 →
        bodyHasErrorStr (handleLogin cfg now req).2 = true)) ∧
    (∀ st b, bodyHasSuccessBool (handleCreatePatient st b).1.2 = true ∧
      ((handleCreatePatient st b).1.1 ≠ 201 →
        bodyHasErrorStr (handleCreatePatient st b).1.2 = true)) ∧
    (∀ st, bodyHasSuccessBool (handleGetPatients st).2 = true) ∧
    (∀ m u, bodyHasSuccessBool (handleNotFound m u).2 = true ∧
      bodyHasErrorStr (handleNotFound m u).2 = true) ∧
    (∀ cfg now h s body, authenticateToken cfg now h = .error (s, body) →
      bodyHasErrorStr body = true ∧ bodyHasSuccessBool body = false) ∧
    (∀ d ts, bodyHasSuccessBool (handleHealth d ts).2 = false) := by
  refine ⟨?_, ?_, ?_, ?_, ?_, ?_⟩
  · intro cfg now req
    by_cases hb : (!(truthy req.username) || !(truthy req.password)) = true
    · have hl : handleLogin cfg now req =
          (400, errBody "Username and password are required") := by
        simp [handleLogin, hb, errBody]
      rw [hl]
      exact ⟨rfl, fun _ => rfl⟩
    · by_cases hm : req.username = some cfg.hardcodedUsername ∧
          req.password = some cfg.hardcodedPassword
      · obtain ⟨hmu, hmp⟩ := hm
        simp only [Bool.not_eq_true, Bool.or_eq_false_iff] at hb
        have hu : truthy req.username = true := by simpa using hb.1
        have hpw : truthy req.password = true := by simpa using hb.2
        rw [hmu] at hu
        rw [hmp] at hpw
        have hl : handleLogin cfg now req =
            (200, .obj [("success", .bool true),
              ("token", .tok (jwtSign ⟨fieldStr req.username, "asha_worker"⟩
                cfg.jwtSecret now (24 * 60 * 60))),
              ("user", .obj [("username", .str (fieldStr req.username)),
                             ("role", .str "asha_worker")])]) := by
          simp [handleLogin, hu, hpw, hmu, hmp]
        rw [hl]
        exact ⟨rfl, fun hne => absurd rfl hne⟩
      · have hl : handleLogin cfg now req =
            (401, errBody "Invalid credentials") := by
          simp [handleLogin, hb, hm, errBody]
        rw [hl]
        exact ⟨rfl, fun _ => rfl⟩
  · intro st b
    rcases validatePatient_cases b with hv | ⟨msg, hv⟩
    · simp [handleCreatePatient, hv, bodyHasSuccessBool, lookupField]
    · simp [handleCreatePatient, hv, errBody, bodyHasSuccessBool,
        bodyHasErrorStr, lookupField]
  · intro st
    rfl
  · intro m u
    exact ⟨rfl, rfl⟩
  · intro cfg now h s body hab
    cases h with
    | absent =>
      simp only [authenticateToken, Except.error.injEq, Prod.mk.injEq] at hab
      obtain ⟨-, hbody⟩ := hab
      subst hbody
      exact ⟨rfl, rfl⟩
    | noToken =>
      simp only [authenticateToken, Except.error.injEq, Prod.mk.injEq] at hab
      obtain ⟨-, hbody⟩ := hab
      subst hbody
      exact ⟨rfl, rfl⟩
    | bearer tok =>
      cases hv : jwtVerify tok cfg.jwtSecret now with
      | none =>
        simp only [authenticateToken, hv, Except.error.injEq,
          Prod.mk.injEq] at hab
        obtain ⟨-, hbody⟩ := hab
        subst hbody
        exact ⟨rfl, rfl⟩
      | some c =>
        simp [authenticateToken, hv] at hab
  · intro d ts
    rfl

/-- Witness for C9 (amended): the middleware body for a missing token does
carry an `error` string. -/
theorem response_bodies_success_and_error_fields_witness :
    bodyHasErrorStr (.obj [("error", .str "Access token required")]) = true :=
  (response_bodies_success_and_error_fields.2.2.2.2.1 defaultConfig 0
    AuthHeader.absent 401 (.obj [("error", .str "Access token required")])
    rfl).1

/-- C10: the middleware distinguishes absence from invalidity at the
interface: no bearer token gives 401 `Access token required`, while a
presented token that fails verification (bad signature, malformed, or
expired) gives 403 `Invalid or expired token`. -/
theorem auth_absent_401_invalid_403
    (cfg : Config) (now : Nat) (tok : PresentedToken)
    (hbad : jwtVerify tok cfg.jwtSecret now = none) :
    authenticateToken cfg now AuthHeader.absent =
      .error (401, .obj [("error", .str "Access token required")]) ∧
    authenticateToken cfg now AuthHeader.noToken =
      .error (401, .obj [("error", .str "Access token required")]) ∧
    authenticateToken cfg now (AuthHeader.bearer tok) =
      .error (403, .obj [("error", .str "Invalid or expired token")]) := by
  refine ⟨rfl, rfl, ?_⟩
  simp [authenticateToken, hbad]

/-- Witness for C10: a malformed token gets the 403 response. -/
theorem auth_absent_401_invalid_403_witness :
    authenticateToken defaultConfig 0 (AuthHeader.bearer .malformed) =
      .error (403, .obj [("error", .str "Invalid or expired token")]) :=
  (auth_absent_401_invalid_403 defaultConfig 0 .malformed rfl).2.2

end SwasthyaLink
